import Mathlib

/-!
Shallow embedding of `crates/ra_hir_ty/src/traits/chalk.rs` (the chalk bridge
of rust-analyzer's type checker) together with the external queries it
consumes.  Definitions translated from the source keep the source's names;
collaborator queries whose code is not part of this excerpt (salsa interning,
the method-resolution impl indices, the lowering layer) are modelled from the
specification and marked as such in their doc comments.
-/

namespace Chalk

/-! ### Identifier types

Internal (hir_def / ty-crate) ids and solver-facing (chalk) handles.
Modelled from the spec: salsa intern keys are stable dense integers, so every
id is a wrapper around a `Nat`; `from_intern_id` / `as_intern_id` are the
constructor and the projection of the wrapper. -/

/-- A crate in the crate graph (`ra_db::CrateId`). -/
structure CrateId where
  value : Nat
deriving DecidableEq, Repr

/-- Internal trait id (`hir_def::TraitId`). -/
structure TraitIdInt where
  value : Nat
deriving DecidableEq, Repr

/-- Solver-facing trait handle (`chalk_ir::TraitId<Interner>`). -/
structure ChalkTraitId where
  value : Nat
deriving DecidableEq, Repr

/-- Internal ADT id (`hir_def::AdtId`). -/
structure AdtIdHir where
  value : Nat
deriving DecidableEq, Repr

/-- Intern key of a `TypeCtor` (`crate::TypeCtorId`). -/
structure TypeCtorId where
  value : Nat
deriving DecidableEq, Repr

/-- Solver-facing ADT handle: `chalk_ir::AdtId` is a newtype over the
internal type-constructor intern key (see the `From` impls at the bottom of
chalk.rs). -/
structure ChalkAdtId where
  val : TypeCtorId
deriving DecidableEq, Repr

/-- Internal callable id (`crate::CallableDefId`), a salsa intern key. -/
structure CallableDefId where
  value : Nat
deriving DecidableEq, Repr

/-- Solver-facing function-definition handle (`chalk_ir::FnDefId`). -/
structure ChalkFnDefId where
  value : Nat
deriving DecidableEq, Repr

/-- Internal global impl id (`crate::traits::GlobalImplId`), a salsa intern
key for `Impl` values. -/
structure GlobalImplId where
  value : Nat
deriving DecidableEq, Repr

/-- Solver-facing impl handle (`chalk_ir::ImplId`). -/
structure ChalkImplId where
  value : Nat
deriving DecidableEq, Repr

/-- Internal interned opaque-type id (`crate::db::InternedOpaqueTyId`). -/
structure InternedOpaqueTyId where
  value : Nat
deriving DecidableEq, Repr

/-- Solver-facing opaque-type handle (`chalk_ir::OpaqueTyId`). -/
structure ChalkOpaqueTyId where
  value : Nat
deriving DecidableEq, Repr

/-- Internal associated-type-value id (`crate::traits::AssocTyValueId`),
a salsa intern key for `AssocTyValue` values. -/
structure AssocTyValueIdInt where
  value : Nat
deriving DecidableEq, Repr

/-- Solver-facing associated-type-value handle
(`rust_ir::AssociatedTyValueId<Interner>`). -/
structure ChalkAssocTyValueId where
  value : Nat
deriving DecidableEq, Repr

/-- Internal impl id (`hir_def::ImplId`). -/
structure ImplIdInt where
  value : Nat
deriving DecidableEq, Repr

/-- Internal type-alias id (`hir_def::TypeAliasId`). -/
structure TypeAliasId where
  value : Nat
deriving DecidableEq, Repr

/-- Solver-facing associated-type handle (`chalk_ir::AssocTypeId`). -/
structure ChalkAssocTypeId where
  value : Nat
deriving DecidableEq, Repr

/-- Internal function id (`hir_def::FunctionId`). -/
structure FunctionId where
  value : Nat
deriving DecidableEq, Repr

/-- An item name (`hir_expand::name::Name`). -/
structure Name where
  text : String
deriving DecidableEq, Repr

/-! ### The `From` conversions of chalk.rs (lines 560-617)

Each is a pair of total functions between an internal id and the solver
handle of the matching kind.  The underlying salsa
`InternKey::from_intern_id` / `as_intern_id` pair is modelled from the spec
as the wrapper constructor and projection over the dense integer key. -/

/-- `impl From<AdtId> for crate::TypeCtorId` -/
def adtIdToTypeCtorId (struct_id : ChalkAdtId) : TypeCtorId :=
  struct_id.val

/-- `impl From<crate::TypeCtorId> for AdtId` -/
def typeCtorIdToAdtId (type_ctor_id : TypeCtorId) : ChalkAdtId :=
  ⟨type_ctor_id⟩

/-- `impl From<FnDefId> for crate::CallableDefId` -/
def fnDefIdToCallableDefId (fn_def_id : ChalkFnDefId) : CallableDefId :=
  ⟨fn_def_id.value⟩

/-- `impl From<crate::CallableDefId> for FnDefId` -/
def callableDefIdToFnDefId (callable_def_id : CallableDefId) : ChalkFnDefId :=
  ⟨callable_def_id.value⟩

/-- `impl From<ImplId> for crate::traits::GlobalImplId` -/
def implIdToGlobalImplId (impl_id : ChalkImplId) : GlobalImplId :=
  ⟨impl_id.value⟩

/-- `impl From<crate::traits::GlobalImplId> for ImplId` -/
def globalImplIdToImplId (impl_id : GlobalImplId) : ChalkImplId :=
  ⟨impl_id.value⟩

/-- `impl From<OpaqueTyId> for crate::db::InternedOpaqueTyId` -/
def opaqueTyIdToInterned (id : ChalkOpaqueTyId) : InternedOpaqueTyId :=
  ⟨id.value⟩

/-- `impl From<crate::db::InternedOpaqueTyId> for OpaqueTyId` -/
def internedToOpaqueTyId (id : InternedOpaqueTyId) : ChalkOpaqueTyId :=
  ⟨id.value⟩

/-- `impl From<rust_ir::AssociatedTyValueId> for crate::traits::AssocTyValueId` -/
def assocTyValueIdFromChalk (id : ChalkAssocTyValueId) : AssocTyValueIdInt :=
  ⟨id.value⟩

/-- `impl From<crate::traits::AssocTyValueId> for rust_ir::AssociatedTyValueId` -/
def assocTyValueIdToChalk (id : AssocTyValueIdInt) : ChalkAssocTyValueId :=
  ⟨id.value⟩

/-- `ToChalk` for `hir_def::TraitId` (interning layer, modelled from the
spec as the identity on the dense integer key). -/
def traitToChalk (t : TraitIdInt) : ChalkTraitId :=
  ⟨t.value⟩

/-- `from_chalk` for trait ids. -/
def traitFromChalk (t : ChalkTraitId) : TraitIdInt :=
  ⟨t.value⟩

/-- `ToChalk` for `hir_def::TypeAliasId` (assoc-type handles). -/
def assocTypeToChalk (t : TypeAliasId) : ChalkAssocTypeId :=
  ⟨t.value⟩

/-- `from_chalk` for assoc-type handles. -/
def assocTypeFromChalk (t : ChalkAssocTypeId) : TypeAliasId :=
  ⟨t.value⟩

/-! ### The well-known-trait bridge (chalk.rs lines 347-372) -/

/-- `chalk_solve::rust_ir::WellKnownTrait`. -/
inductive WellKnownTrait
  | Sized
  | Copy
  | Clone
  | Drop
  | FnOnce
  | FnMut
  | Fn
  | Unsize
deriving DecidableEq, Repr

/-- `well_known_trait_from_lang_attr` (chalk.rs lines 347-359).  The Rust
`match` over string patterns is rendered as the equivalent chain of
equality tests. -/
def well_known_trait_from_lang_attr (name : String) : Option WellKnownTrait :=
  if name = "sized" then some WellKnownTrait.Sized
  else if name = "copy" then some WellKnownTrait.Copy
  else if name = "clone" then some WellKnownTrait.Clone
  else if name = "drop" then some WellKnownTrait.Drop
  else if name = "fn_once" then some WellKnownTrait.FnOnce
  else if name = "fn_mut" then some WellKnownTrait.FnMut
  else if name = "fn" then some WellKnownTrait.Fn
  else if name = "unsize" then some WellKnownTrait.Unsize
  else none

/-- `lang_attr_from_well_known_trait` (chalk.rs lines 361-372). -/
def lang_attr_from_well_known_trait (attr : WellKnownTrait) : String :=
  match attr with
  | WellKnownTrait.Sized => "sized"
  | WellKnownTrait.Copy => "copy"
  | WellKnownTrait.Clone => "clone"
  | WellKnownTrait.Drop => "drop"
  | WellKnownTrait.FnOnce => "fn_once"
  | WellKnownTrait.FnMut => "fn_mut"
  | WellKnownTrait.Fn => "fn"
  | WellKnownTrait.Unsize => "unsize"

/-! ### The internal type representation

Modelled from the spec and the uses inside chalk.rs: only the head
constructor and top-level bound variables of a type are ever inspected by
this component (fingerprinting, `binder_kind`), so type arguments of an
application are elided. -/

/-- Signed/unsigned integer primitive kinds (`crate::primitive::IntTy`). -/
inductive IntTy
  | I8 | I16 | I32 | I64 | I128 | Isize
  | U8 | U16 | U32 | U64 | U128 | Usize
deriving DecidableEq, Repr

/-- Float primitive kinds (`crate::primitive::FloatTy`). -/
inductive FloatTy
  | F32
  | F64
deriving DecidableEq, Repr

/-- Head type constructors (`crate::TypeCtor`), restricted to the variants
the modelled claims exercise; every other head behaves like `Adt` for
fingerprinting and carries no crate of its own. -/
inductive TypeCtor
  | Int (t : IntTy)
  | Float (t : FloatTy)
  | Adt (a : AdtIdHir)
deriving DecidableEq, Repr

/-- A bound variable reference (`chalk_ir::BoundVar`): de Bruijn index of
the binder (0 = `DebruijnIndex::INNERMOST`) plus the position inside it. -/
structure BoundVar where
  debruijn : Nat
  index : Nat
deriving DecidableEq, Repr

/-- The internal type (`crate::Ty`).  `Apply` elides its argument list (see
the section comment); `Projection`, `Dyn` and `Unknown` stand for the
remaining head-less variants, all of which fingerprint to "no stable
head". -/
inductive Ty
  | Apply (ctor : TypeCtor)
  | Projection (p : Nat)
  | Dyn (d : Nat)
  | Bound (bv : BoundVar)
  | Unknown
deriving DecidableEq, Repr

/-- Shifting a value into one additional binder
(`chalk_ir::fold::shift::Shift::shifted_in`).  With type arguments elided
only a top-level bound variable carries an index to adjust. -/
def Ty.shifted_in : Ty → Ty
  | Ty.Bound bv => Ty.Bound { debruijn := bv.debruijn + 1, index := bv.index }
  | t => t

/-- `crate::method_resolution::TyFingerprint`.  Modelled from the spec: a
coarse structural key of a type's head constructor. -/
inductive TyFingerprint
  | apply (ctor : TypeCtor)
deriving DecidableEq, Repr

/-- `TyFingerprint::for_impl`.  Modelled from the spec: the fingerprint of
the concrete head type, or none when the type has no stable head. -/
def TyFingerprint.for_impl (ty : Ty) : Option TyFingerprint :=
  match ty with
  | Ty.Apply ctor => some (TyFingerprint.apply ctor)
  | _ => none

/-- `crate::method_resolution::ALL_INT_FPS`: the fixed table of all integer
fingerprints (modelled from the spec). -/
def ALL_INT_FPS : List TyFingerprint :=
  [TyFingerprint.apply (TypeCtor.Int IntTy.I8),
   TyFingerprint.apply (TypeCtor.Int IntTy.I16),
   TyFingerprint.apply (TypeCtor.Int IntTy.I32),
   TyFingerprint.apply (TypeCtor.Int IntTy.I64),
   TyFingerprint.apply (TypeCtor.Int IntTy.I128),
   TyFingerprint.apply (TypeCtor.Int IntTy.Isize),
   TyFingerprint.apply (TypeCtor.Int IntTy.U8),
   TyFingerprint.apply (TypeCtor.Int IntTy.U16),
   TyFingerprint.apply (TypeCtor.Int IntTy.U32),
   TyFingerprint.apply (TypeCtor.Int IntTy.U64),
   TyFingerprint.apply (TypeCtor.Int IntTy.U128),
   TyFingerprint.apply (TypeCtor.Int IntTy.Usize)]

/-- `crate::method_resolution::ALL_FLOAT_FPS`: the fixed table of all float
fingerprints (modelled from the spec). -/
def ALL_FLOAT_FPS : List TyFingerprint :=
  [TyFingerprint.apply (TypeCtor.Float FloatTy.F32),
   TyFingerprint.apply (TypeCtor.Float FloatTy.F64)]

/-- `chalk_ir::TyKind` as it appears in canonical variable kinds. -/
inductive ChalkTyKind
  | General
  | Integer
  | Float
deriving DecidableEq, Repr

/-- `chalk_ir::VariableKind`: the declared kind of one canonical binder. -/
inductive VariableKind
  | Ty (k : ChalkTyKind)
  | Lifetime
deriving DecidableEq, Repr

/-! ### Predicates, binders and solver-facing payloads -/

/-- A reference to a trait applied to a self type
(`crate::TraitRef`, with the substitution elided beyond the trait id). -/
structure TraitRef where
  trait_ : TraitIdInt
deriving DecidableEq, Repr

/-- `crate::GenericPredicate`: a lowered where-clause predicate,
`Error` being the internal placeholder for a predicate that failed to
resolve. -/
inductive GenericPredicate
  | Implemented (tr : TraitRef)
  | Projection (p : Nat)
  | Error
deriving DecidableEq, Repr

/-- `GenericPredicate::is_error`. -/
def GenericPredicate.is_error : GenericPredicate → Bool
  | GenericPredicate.Error => true
  | _ => false

/-- `chalk_ir::Binders<T>`: a payload together with the number of bound
variables wrapped around it. -/
structure Binders (α : Type) where
  num_binders : Nat
  value : α
deriving DecidableEq, Repr

/-- `make_binders` (mapping.rs; modelled from the spec: wraps a value in the
given number of fresh bound-variable kinds). -/
def make_binders {α : Type} (value : α) (num_vars : Nat) : Binders α :=
  { num_binders := num_vars, value := value }

/-- A chalk-side type: the `ToChalk` translation of a `Ty` is modelled from
the spec as an injective retagging. -/
structure ChalkTy where
  ty : Ty
deriving DecidableEq, Repr

/-- `Ty::to_chalk`. -/
def tyToChalk (t : Ty) : ChalkTy :=
  ⟨t⟩

/-- A chalk-side quantified where clause: the `ToChalk` translation of a
`GenericPredicate` is modelled from the spec as an injective retagging. -/
structure ChalkWhereClause where
  pred : GenericPredicate
deriving DecidableEq, Repr

/-- `GenericPredicate::to_chalk`. -/
def predToChalk (p : GenericPredicate) : ChalkWhereClause :=
  ⟨p⟩

/-- A chalk-side trait reference (`TraitRef::to_chalk`, injective
retagging). -/
structure ChalkTraitRef where
  value : TraitRef
deriving DecidableEq, Repr

/-- `TraitRef::to_chalk`. -/
def traitRefToChalk (tr : TraitRef) : ChalkTraitRef :=
  ⟨tr⟩

/-- A solver inline bound on an associated type (payload opaque to the
modelled claims; produced by the external lowering). -/
structure InlineBound where
  value : Nat
deriving DecidableEq, Repr

/-! ### Datum structures (`chalk_solve::rust_ir`) -/

/-- `rust_ir::TraitFlags`. -/
structure TraitFlags where
  auto : Bool
  upstream : Bool
  non_enumerable : Bool
  coinductive : Bool
  marker : Bool
  fundamental : Bool
deriving DecidableEq, Repr

/-- `rust_ir::TraitDatumBound`. -/
structure TraitDatumBound where
  where_clauses : List ChalkWhereClause
deriving DecidableEq, Repr

/-- `rust_ir::TraitDatum`. -/
structure TraitDatum where
  id : ChalkTraitId
  binders : Binders TraitDatumBound
  flags : TraitFlags
  associated_ty_ids : List ChalkAssocTypeId
  well_known : Option WellKnownTrait
deriving DecidableEq, Repr

/-- `rust_ir::AdtKind`. -/
inductive AdtKind
  | Struct
  | Enum
  | Union
deriving DecidableEq, Repr

/-- `rust_ir::AdtFlags`. -/
structure AdtFlags where
  upstream : Bool
  fundamental : Bool
  phantom_data : Bool
deriving DecidableEq, Repr

/-- `rust_ir::AdtVariantDatum`. -/
structure AdtVariantDatum where
  fields : List ChalkTy
deriving DecidableEq, Repr

/-- `rust_ir::AdtDatumBound`. -/
structure AdtDatumBound where
  variants : List AdtVariantDatum
  where_clauses : List ChalkWhereClause
deriving DecidableEq, Repr

/-- `rust_ir::AdtDatum` (named `StructDatum` in chalk.rs). -/
structure StructDatum where
  kind : AdtKind
  id : ChalkAdtId
  binders : Binders AdtDatumBound
  flags : AdtFlags
deriving DecidableEq, Repr

/-- `rust_ir::ImplType`. -/
inductive ImplType
  | Local
  | External
deriving DecidableEq, Repr

/-- `rust_ir::Polarity`. -/
inductive Polarity
  | Positive
  | Negative
deriving DecidableEq, Repr

/-- `rust_ir::ImplDatumBound`. -/
structure ImplDatumBound where
  trait_ref : ChalkTraitRef
  where_clauses : List ChalkWhereClause
deriving DecidableEq, Repr

/-- `rust_ir::ImplDatum`. -/
structure ImplDatum where
  binders : Binders ImplDatumBound
  impl_type : ImplType
  polarity : Polarity
  associated_ty_value_ids : List ChalkAssocTyValueId
deriving DecidableEq, Repr

/-- `rust_ir::AssociatedTyDatumBound`. -/
structure AssociatedTyDatumBound where
  bounds : List (Binders InlineBound)
  where_clauses : List ChalkWhereClause
deriving DecidableEq, Repr

/-- `rust_ir::AssociatedTyDatum`. -/
structure AssociatedTyDatum where
  trait_id : ChalkTraitId
  id : ChalkAssocTypeId
  name : TypeAliasId
  binders : Binders AssociatedTyDatumBound
deriving DecidableEq, Repr

/-- `rust_ir::AssociatedTyValueBound`. -/
structure AssociatedTyValueBound where
  ty : ChalkTy
deriving DecidableEq, Repr

/-- `rust_ir::AssociatedTyValue`. -/
structure AssociatedTyValueRec where
  impl_id : ChalkImplId
  associated_ty_id : ChalkAssocTypeId
  value : Binders AssociatedTyValueBound
deriving DecidableEq, Repr

/-- `rust_ir::FnDefInputsAndOutputDatum`. -/
structure FnDefInputsAndOutputDatum where
  argument_types : List ChalkTy
  return_type : ChalkTy
deriving DecidableEq, Repr

/-- `Shift::shifted_in` on the inputs-and-output record: every contained
type is shifted into the additional binder. -/
def FnDefInputsAndOutputDatum.shifted_in
    (d : FnDefInputsAndOutputDatum) : FnDefInputsAndOutputDatum :=
  { argument_types := d.argument_types.map (fun t => ⟨t.ty.shifted_in⟩)
    return_type := ⟨d.return_type.ty.shifted_in⟩ }

/-- `rust_ir::FnDefDatumBound`. -/
structure FnDefDatumBound where
  inputs_and_output : Binders FnDefInputsAndOutputDatum
  where_clauses : List ChalkWhereClause
deriving DecidableEq, Repr

/-- `rust_ir::FnDefDatum`. -/
structure FnDefDatum where
  id : ChalkFnDefId
  binders : Binders FnDefDatumBound
  abi : Unit
deriving DecidableEq, Repr

/-- `rust_ir::OpaqueTyDatumBound`. -/
structure OpaqueTyDatumBound where
  bounds : Binders (List ChalkWhereClause)
deriving DecidableEq, Repr

/-- `rust_ir::OpaqueTyDatum`. -/
structure OpaqueTyDatum where
  opaque_ty_id : ChalkOpaqueTyId
  bound : Binders OpaqueTyDatumBound
deriving DecidableEq, Repr

/-! ### Internal enums interned into solver handles -/

/-- `crate::traits::Impl`: either a real impl block or a synthesized
built-in impl (the closure `Fn`-trait impls; their payload is opaque to the
modelled claims). -/
inductive Impl
  | ImplDef (id : ImplIdInt)
  | ClosureFnTraitImpl (data : Nat)
deriving DecidableEq, Repr

/-- `crate::traits::AssocTyValue`: either a type alias in an impl block or
the output type of a built-in closure impl. -/
inductive AssocTyValue
  | TypeAlias (t : TypeAliasId)
  | ClosureFnTraitImplOutput (data : Nat)
deriving DecidableEq, Repr

/-! ### External query results consumed by the bridge -/

/-- `hir_def::AssocItemId`. -/
inductive AssocItemId
  | functionId (f : FunctionId)
  | constId (c : Nat)
  | typeAliasId (t : TypeAliasId)
deriving DecidableEq, Repr

/-- `hir_def::AssocContainerId`: the container a type alias lives in. -/
inductive AssocContainerId
  | TraitContainer (t : TraitIdInt)
  | ImplContainer (i : ImplIdInt)
  | ContainerModule (m : Nat)
deriving DecidableEq, Repr

/-- `hir_def::data::ImplData` (the fields this bridge reads). -/
structure ImplData where
  items : List AssocItemId
  is_negative : Bool
deriving DecidableEq, Repr

/-- `hir_def::data::TraitData` (the fields this bridge reads): named items
plus the auto-trait flag. -/
structure TraitData where
  items : List (Name × AssocItemId)
  auto : Bool
deriving DecidableEq, Repr

/-- `TraitData::associated_type_by_name`: the first type-alias item with
the given name (modelled from the spec: the trait's declared associated
types are looked up by name). -/
def TraitData.associated_type_by_name (td : TraitData) (name : Name) :
    Option TypeAliasId :=
  td.items.findSome? (fun it =>
    match it.2 with
    | AssocItemId.typeAliasId t => if it.1 = name then some t else none
    | _ => none)

/-- `TraitData::associated_types`: all type-alias items of the trait. -/
def TraitData.associated_types (td : TraitData) : List TypeAliasId :=
  td.items.filterMap (fun it =>
    match it.2 with
    | AssocItemId.typeAliasId t => some t
    | _ => none)

/-- `hir_def::data::TypeAliasData` (the fields this bridge reads). -/
structure TypeAliasData where
  name : Name
deriving DecidableEq, Repr

/-- A generic definition a `generics(..)` or where-clause query can be
asked about (`hir_def::GenericDefId`). -/
inductive GenericDefId
  | traitDef (t : TraitIdInt)
  | adtDef (a : AdtIdHir)
  | implDef (i : ImplIdInt)
  | typeAliasDef (t : TypeAliasId)
  | callableDef (c : CallableDefId)
deriving DecidableEq, Repr

/-- `crate::FnSig` (the fields this bridge reads): parameter types in
declaration order plus the return type. -/
structure FnSig where
  params : List Ty
  ret : Ty
deriving DecidableEq, Repr

/-- One return-position impl-trait record
(`crate::ReturnTypeImplTrait`): its bound list under its own binders. -/
structure ReturnTypeImplTrait where
  bounds : Binders (List GenericPredicate)
deriving DecidableEq, Repr

/-- All return-position impl-trait records of one function
(`crate::ReturnTypeImplTraits`). -/
structure ReturnTypeImplTraits where
  impl_traits : List ReturnTypeImplTrait
deriving DecidableEq, Repr

/-- `crate::OpaqueTyId`: what an interned opaque-type id stands for. -/
inductive OpaqueTyIdFull
  | ReturnTypeImplTrait (func : FunctionId) (idx : Nat)
deriving DecidableEq, Repr

/-- One entry of the per-crate impl index.  Modelled from the spec: the
index records, for every impl whose trait reference resolved, its trait,
the fingerprint of its self type (when the self type has a stable head)
and the impl id. -/
structure ImplEntry where
  trait_ : TraitIdInt
  self_ty_fp : Option TyFingerprint
  impl_id : ImplIdInt
deriving DecidableEq, Repr

/-- `crate::method_resolution::CrateImplDefs` (modelled from the spec): the
impl index of one crate, as the list of its entries; the two lookup maps
`by_trait` and `by_trait_and_fingerprint` are the two filters below, so
the consistency the spec assumes between them holds by construction. -/
structure CrateImplDefs where
  entries : List ImplEntry
deriving DecidableEq, Repr

/-- `CrateImplDefs::for_trait`: all impls of the given trait. -/
def CrateImplDefs.for_trait (defs : CrateImplDefs) (t : TraitIdInt) :
    List ImplIdInt :=
  defs.entries.filterMap (fun e =>
    if e.trait_ = t then some e.impl_id else none)

/-- `CrateImplDefs::for_trait_and_self_ty`: all impls of the given trait
whose self type has the given fingerprint. -/
def CrateImplDefs.for_trait_and_self_ty (defs : CrateImplDefs)
    (t : TraitIdInt) (fp : TyFingerprint) : List ImplIdInt :=
  defs.entries.filterMap (fun e =>
    if e.trait_ = t ∧ e.self_ty_fp = some fp then some e.impl_id else none)

/-! ### The database of external query results

`dyn HirDatabase` as this bridge consumes it: one field per external query
(spec §6).  The interning of `Impl` / `AssocTyValue` values is modelled
from the spec as database-owned total functions. -/

structure ChalkDb where
  trait_impls_in_crate : CrateId → CrateImplDefs
  trait_impls_in_deps : CrateId → CrateImplDefs
  get_builtin_impls : CrateId → Ty → Option Ty → TraitIdInt → List Impl
  internImpl : Impl → ChalkImplId
  internAssocTyValue : AssocTyValue → ChalkAssocTyValueId
  impl_trait : ImplIdInt → Option (Binders TraitRef)
  impl_data : ImplIdInt → ImplData
  trait_data : TraitIdInt → TraitData
  type_alias_data : TypeAliasId → TypeAliasData
  type_alias_container : TypeAliasId → AssocContainerId
  generics_len : GenericDefId → Nat
  where_predicates : GenericDefId → List GenericPredicate
  trait_module_krate : TraitIdInt → CrateId
  impl_module_krate : ImplIdInt → CrateId
  adt_module_krate : AdtIdHir → CrateId
  lang_attr : TraitIdInt → Option String
  callable_item_signature : CallableDefId → Binders FnSig
  ty_of_type_alias : TypeAliasId → Binders Ty
  return_type_impl_traits : FunctionId → Option (Binders ReturnTypeImplTraits)
  lookup_intern_impl_trait_id : InternedOpaqueTyId → OpaqueTyIdFull
  lookup_intern_type_ctor : TypeCtorId → TypeCtor
  type_alias_bounds_inline : TypeAliasId → List InlineBound

/-- `convert_where_clauses` (mapping.rs; modelled from the spec §4.2: the
definition's lowered predicates with internal error placeholders silently
dropped, converted to solver form). -/
def convert_where_clauses (db : ChalkDb) (def_ : GenericDefId) :
    List ChalkWhereClause :=
  ((db.where_predicates def_).filter
    (fun p => !p.is_error)).map predToChalk

/-- `TypeCtor::krate`: the owning crate of a head constructor — only ADTs
(and other def-backed heads, elided here) have one; primitives have
none. -/
def TypeCtor.krate (db : ChalkDb) : TypeCtor → Option CrateId
  | TypeCtor.Adt a => some (db.adt_module_krate a)
  | _ => none

/-- `TypeCtor::num_ty_params`: generic-parameter count of the head. -/
def TypeCtor.num_ty_params (db : ChalkDb) : TypeCtor → Nat
  | TypeCtor.Adt a => db.generics_len (GenericDefId.adtDef a)
  | _ => 0

/-- `TypeCtor::as_generic_def`. -/
def TypeCtor.as_generic_def : TypeCtor → Option GenericDefId
  | TypeCtor.Adt a => some (GenericDefId.adtDef a)
  | _ => none

/-! ### `impls_for_trait` (chalk.rs lines 68-133) -/

/-- The inner `binder_kind` function (chalk.rs lines 79-89): the declared
chalk kind of the self type when it is a bound variable of the innermost
canonical binder.  (The source indexes `binders[bv.index]` and would panic
out of bounds; here an out-of-bounds index yields `none`, which no claim
exercises.) -/
def binder_kind (ty : Ty) (binders : List VariableKind) :
    Option ChalkTyKind :=
  match ty with
  | Ty.Bound bv =>
      if bv.debruijn = 0 then
        match binders.get? bv.index with
        | some (VariableKind.Ty tk) => some tk
        | _ => none
      else none
  | _ => none

/-- The pruning-fingerprint selection of `impls_for_trait` (chalk.rs lines
91-96): the fixed integer/float tables for int/float-kinded bound
variables, else the singleton fingerprint of the concrete head (empty when
the type has no stable head). -/
def fpsForTrait (ty : Ty) (binders : List VariableKind) :
    List TyFingerprint :=
  match binder_kind ty binders with
  | some ChalkTyKind.Integer => ALL_INT_FPS
  | some ChalkTyKind.Float => ALL_FLOAT_FPS
  | _ =>
      match TyFingerprint.for_impl ty with
      | some fp => [fp]
      | none => []

/-- `impls_for_trait` (chalk.rs lines 68-133).  The chalk-side parameter
decoding (`from_chalk` of `parameters[0]` / `parameters.get(1)`) is taken
as already done: `ty` and `arg` are the decoded self type and optional
second parameter. -/
def impls_for_trait (db : ChalkDb) (krate : CrateId) (trait_ : TraitIdInt)
    (ty : Ty) (arg : Option Ty) (binders : List VariableKind) :
    List ChalkImplId :=
  (if (fpsForTrait ty binders).isEmpty then
    [db.trait_impls_in_deps krate, db.trait_impls_in_crate krate].flatMap
      (fun crate_impl_defs =>
        (crate_impl_defs.for_trait trait_).map
          (fun id => db.internImpl (Impl.ImplDef id)))
  else
    [db.trait_impls_in_deps krate, db.trait_impls_in_crate krate].flatMap
      (fun crate_impl_defs =>
        (fpsForTrait ty binders).flatMap (fun fp =>
          (crate_impl_defs.for_trait_and_self_ty trait_ fp).map
            (fun id => db.internImpl (Impl.ImplDef id)))))
  ++ (db.get_builtin_impls krate ty arg trait_).map db.internImpl

/-- The unrestricted-scan variant of `impls_for_trait`, following the
spec's words for the refinement comparison: always take the full per-trait
impl lists of the dependency and local indices, then append the built-in
impls identically. -/
def impls_for_trait_unrestricted (db : ChalkDb) (krate : CrateId)
    (trait_ : TraitIdInt) (ty : Ty) (arg : Option Ty)
    (_binders : List VariableKind) : List ChalkImplId :=
  ([db.trait_impls_in_deps krate, db.trait_impls_in_crate krate].flatMap
    (fun crate_impl_defs =>
      (crate_impl_defs.for_trait trait_).map
        (fun id => db.internImpl (Impl.ImplDef id))))
  ++ (db.get_builtin_impls krate ty arg trait_).map db.internImpl

/-! ### Datum-construction queries (chalk.rs lines 273-558) -/

/-- `associated_ty_data_query` (chalk.rs lines 273-309).  The source panics
when the type alias is not contained in a trait; that arm is `none` here.
The bound lowering pipeline (`TyLoweringContext`,
`generic_predicate_to_inline_bound`) is external; its result is the
database's inline-bound list, each wrapped in zero extra binders exactly as
the source does. -/
def associated_ty_data_query (db : ChalkDb) (id : ChalkAssocTypeId) :
    Option AssociatedTyDatum :=
  let type_alias := assocTypeFromChalk id
  match db.type_alias_container type_alias with
  | AssocContainerId.TraitContainer trait_ =>
      let generic_params_len :=
        db.generics_len (GenericDefId.typeAliasDef type_alias)
      let bounds :=
        (db.type_alias_bounds_inline type_alias).map
          (fun bound => make_binders bound 0)
      let where_clauses :=
        convert_where_clauses db (GenericDefId.typeAliasDef type_alias)
      let bound_data : AssociatedTyDatumBound :=
        { bounds := bounds, where_clauses := where_clauses }
      some { trait_id := traitToChalk trait_
             id := id
             name := type_alias
             binders := make_binders bound_data generic_params_len }
  | _ => none

/-- `trait_datum_query` (chalk.rs lines 311-345). -/
def trait_datum_query (db : ChalkDb) (krate : CrateId)
    (trait_id : ChalkTraitId) : TraitDatum :=
  let trait_ := traitFromChalk trait_id
  let trait_data := db.trait_data trait_
  let bound_vars_len := db.generics_len (GenericDefId.traitDef trait_)
  let flags : TraitFlags :=
    { auto := trait_data.auto
      upstream := decide (db.trait_module_krate trait_ ≠ krate)
      non_enumerable := true
      coinductive := false
      marker := false
      fundamental := false }
  let where_clauses := convert_where_clauses db (GenericDefId.traitDef trait_)
  let associated_ty_ids := trait_data.associated_types.map assocTypeToChalk
  let trait_datum_bound : TraitDatumBound := { where_clauses := where_clauses }
  let well_known :=
    (db.lang_attr trait_).bind
      (fun name => well_known_trait_from_lang_attr name)
  { id := trait_id
    binders := make_binders trait_datum_bound bound_vars_len
    flags := flags
    associated_ty_ids := associated_ty_ids
    well_known := well_known }

/-- `struct_datum_query` (chalk.rs lines 374-411). -/
def struct_datum_query (db : ChalkDb) (krate : CrateId)
    (struct_id : ChalkAdtId) : StructDatum :=
  let type_ctor := db.lookup_intern_type_ctor (adtIdToTypeCtorId struct_id)
  let num_params := TypeCtor.num_ty_params db type_ctor
  let upstream := decide (TypeCtor.krate db type_ctor ≠ some krate)
  let where_clauses :=
    match TypeCtor.as_generic_def type_ctor with
    | some generic_def => convert_where_clauses db generic_def
    | none => []
  let flags : AdtFlags :=
    { upstream := upstream, fundamental := false, phantom_data := false }
  let variant : AdtVariantDatum := { fields := [] }
  let struct_datum_bound : AdtDatumBound :=
    { variants := [variant], where_clauses := where_clauses }
  { kind := AdtKind.Struct
    id := struct_id
    binders := make_binders struct_datum_bound num_params
    flags := flags }

/-- `impl_def_datum` (chalk.rs lines 427-485).  The source's
`.expect("invalid impl passed to Chalk")` on an unresolved trait reference
is the `none` arm here. -/
def impl_def_datum (db : ChalkDb) (krate : CrateId)
    (_chalk_id : ChalkImplId) (impl_id : ImplIdInt) : Option ImplDatum :=
  match db.impl_trait impl_id with
  | none => none
  | some trait_ref_binders =>
      let trait_ref := trait_ref_binders.value
      let impl_data := db.impl_data impl_id
      let bound_vars_len := db.generics_len (GenericDefId.implDef impl_id)
      let trait_ := trait_ref.trait_
      let impl_type :=
        if db.impl_module_krate impl_id = krate then ImplType.Local
        else ImplType.External
      let where_clauses := convert_where_clauses db (GenericDefId.implDef impl_id)
      let negative := impl_data.is_negative
      let polarity :=
        if negative then Polarity.Negative else Polarity.Positive
      let impl_datum_bound : ImplDatumBound :=
        { trait_ref := traitRefToChalk trait_ref
          where_clauses := where_clauses }
      let trait_data := db.trait_data trait_
      let associated_ty_value_ids :=
        ((impl_data.items.filterMap (fun item =>
            match item with
            | AssocItemId.typeAliasId type_alias => some type_alias
            | _ => none)).filter (fun type_alias =>
          ((trait_data.associated_type_by_name
              (db.type_alias_data type_alias).name).isSome : Bool))).map
          (fun type_alias =>
            db.internAssocTyValue (AssocTyValue.TypeAlias type_alias))
      some { binders := make_binders impl_datum_bound bound_vars_len
             impl_type := impl_type
             polarity := polarity
             associated_ty_value_ids := associated_ty_value_ids }

/-- `type_alias_associated_ty_value` (chalk.rs lines 501-526).  Each
`.expect` / `panic!` of the source (type alias not in an impl, unresolved
trait reference, associated type absent from the trait) is a `none` arm
here. -/
def type_alias_associated_ty_value (db : ChalkDb) (_krate : CrateId)
    (type_alias : TypeAliasId) : Option AssociatedTyValueRec :=
  let type_alias_data := db.type_alias_data type_alias
  match db.type_alias_container type_alias with
  | AssocContainerId.ImplContainer impl_id =>
      match db.impl_trait impl_id with
      | none => none
      | some trait_ref_binders =>
          match (db.trait_data trait_ref_binders.value.trait_).associated_type_by_name
              type_alias_data.name with
          | none => none
          | some assoc_ty =>
              let ty := db.ty_of_type_alias type_alias
              let value_bound : AssociatedTyValueBound :=
                { ty := tyToChalk ty.value }
              some { impl_id := db.internImpl (Impl.ImplDef impl_id)
                     associated_ty_id := assocTypeToChalk assoc_ty
                     value := make_binders value_bound ty.num_binders }
  | _ => none

/-- `fn_def_datum_query` (chalk.rs lines 528-558). -/
def fn_def_datum_query (db : ChalkDb) (_krate : CrateId)
    (fn_def_id : ChalkFnDefId) : FnDefDatum :=
  let callable_def := fnDefIdToCallableDefId fn_def_id
  let sig := db.callable_item_signature callable_def
  let where_clauses :=
    convert_where_clauses db (GenericDefId.callableDef callable_def)
  let bound : FnDefDatumBound :=
    { inputs_and_output := make_binders
        (FnDefInputsAndOutputDatum.shifted_in
          { argument_types := sig.value.params.map tyToChalk
            return_type := tyToChalk sig.value.ret })
        0
      where_clauses := where_clauses }
  { id := fn_def_id
    binders := make_binders bound sig.num_binders
    abi := () }

/-- `opaque_ty_data` (chalk.rs lines 171-194).  The source's
`.expect("impl trait id without impl traits")` and the panicking index
`impl_traits[idx]` are the `none` arms here. -/
def opaque_ty_data (db : ChalkDb) (id : ChalkOpaqueTyId) :
    Option OpaqueTyDatum :=
  let interned_id := opaqueTyIdToInterned id
  match db.lookup_intern_impl_trait_id interned_id with
  | OpaqueTyIdFull.ReturnTypeImplTrait func idx =>
      match db.return_type_impl_traits func with
      | none => none
      | some datas =>
          match datas.value.impl_traits.get? idx with
          | none => none
          | some data =>
              let bound : OpaqueTyDatumBound :=
                { bounds := make_binders
                    (((data.bounds.value.filter
                        (fun b => !b.is_error)).map predToChalk))
                    1 }
              let num_vars := datas.num_binders
              some { opaque_ty_id := id
                     bound := make_binders bound num_vars }

/-! ### A concrete database fixture

One crate (`⟨0⟩`) holding a trait `⟨0⟩` with associated type "Assoc"
(declared alias `⟨5⟩`), three impls: `⟨0⟩` with an unresolved trait
reference, `⟨1⟩` and `⟨2⟩` resolved, indexed under two different self-type
fingerprints; a return-position impl-trait record with one real and one
error bound. -/

/-- One return-position impl-trait record of the fixture: a real bound and
an error placeholder, under one binder. -/
def dataEx : ReturnTypeImplTrait :=
  { bounds := { num_binders := 1
                value := [GenericPredicate.Implemented { trait_ := ⟨0⟩ },
                          GenericPredicate.Error] } }

/-- The fixture's stored impl-trait records: the single record above, under
two outer binders. -/
def datasEx : Binders ReturnTypeImplTraits :=
  { num_binders := 2, value := { impl_traits := [dataEx] } }

/-- The fixture database. -/
def dbEx : ChalkDb :=
  { trait_impls_in_crate := fun _ =>
      { entries :=
          [{ trait_ := ⟨0⟩
             self_ty_fp := some (TyFingerprint.apply (TypeCtor.Adt ⟨0⟩))
             impl_id := ⟨1⟩ },
           { trait_ := ⟨0⟩
             self_ty_fp := some (TyFingerprint.apply (TypeCtor.Adt ⟨1⟩))
             impl_id := ⟨2⟩ }] }
    trait_impls_in_deps := fun _ => { entries := [] }
    get_builtin_impls := fun _ _ _ _ => []
    internImpl := fun i =>
      match i with
      | Impl.ImplDef x => ⟨x.value⟩
      | Impl.ClosureFnTraitImpl n => ⟨100 + n⟩
    internAssocTyValue := fun v =>
      match v with
      | AssocTyValue.TypeAlias t => ⟨t.value⟩
      | AssocTyValue.ClosureFnTraitImplOutput n => ⟨100 + n⟩
    impl_trait := fun i =>
      if i.value = 0 then none
      else some { num_binders := 0, value := { trait_ := ⟨0⟩ } }
    impl_data := fun _ =>
      { items := [AssocItemId.typeAliasId ⟨1⟩,
                  AssocItemId.functionId ⟨0⟩,
                  AssocItemId.typeAliasId ⟨7⟩]
        is_negative := false }
    trait_data := fun _ =>
      { items := [(⟨"Assoc"⟩, AssocItemId.typeAliasId ⟨5⟩)], auto := false }
    type_alias_data := fun t =>
      if t.value = 1 ∨ t.value = 5 then { name := ⟨"Assoc"⟩ }
      else { name := ⟨"Other"⟩ }
    type_alias_container := fun t =>
      if t.value = 0 then AssocContainerId.ImplContainer ⟨0⟩
      else if t.value = 5 then AssocContainerId.TraitContainer ⟨0⟩
      else AssocContainerId.ImplContainer ⟨1⟩
    generics_len := fun _ => 0
    where_predicates := fun _ => []
    trait_module_krate := fun _ => ⟨0⟩
    impl_module_krate := fun _ => ⟨0⟩
    adt_module_krate := fun _ => ⟨0⟩
    lang_attr := fun _ => none
    callable_item_signature := fun _ =>
      { num_binders := 0, value := { params := [], ret := Ty.Unknown } }
    ty_of_type_alias := fun _ => { num_binders := 0, value := Ty.Unknown }
    return_type_impl_traits := fun _ => some datasEx
    lookup_intern_impl_trait_id := fun _ =>
      OpaqueTyIdFull.ReturnTypeImplTrait ⟨0⟩ 0
    lookup_intern_type_ctor := fun _ => TypeCtor.Adt ⟨0⟩
    type_alias_bounds_inline := fun _ => [] }

/-! ### Claim theorems -/

/-- C2: for every definition-id kind bridged to the solver (type-ctor id,
callable id, global impl id, interned opaque-ty id, assoc-ty-value id),
the paired conversions between the internal id and the solver handle are
mutually inverse in both directions. -/
theorem id_conversions_roundtrip :
    (∀ x : TypeCtorId, adtIdToTypeCtorId (typeCtorIdToAdtId x) = x)
    ∧ (∀ h : ChalkAdtId, typeCtorIdToAdtId (adtIdToTypeCtorId h) = h)
    ∧ (∀ x : CallableDefId, fnDefIdToCallableDefId (callableDefIdToFnDefId x) = x)
    ∧ (∀ h : ChalkFnDefId, callableDefIdToFnDefId (fnDefIdToCallableDefId h) = h)
    ∧ (∀ x : GlobalImplId, implIdToGlobalImplId (globalImplIdToImplId x) = x)
    ∧ (∀ h : ChalkImplId, globalImplIdToImplId (implIdToGlobalImplId h) = h)
    ∧ (∀ x : InternedOpaqueTyId, opaqueTyIdToInterned (internedToOpaqueTyId x) = x)
    ∧ (∀ h : ChalkOpaqueTyId, internedToOpaqueTyId (opaqueTyIdToInterned h) = h)
    ∧ (∀ x : AssocTyValueIdInt, assocTyValueIdFromChalk (assocTyValueIdToChalk x) = x)
    ∧ (∀ h : ChalkAssocTyValueId, assocTyValueIdToChalk (assocTyValueIdFromChalk h) = h) :=
  ⟨fun _ => rfl, fun _ => rfl, fun _ => rfl, fun _ => rfl, fun _ => rfl,
   fun _ => rfl, fun _ => rfl, fun _ => rfl, fun _ => rfl, fun _ => rfl⟩

/-- C3: the well-known-trait bridge is a bijection on the eight marker
names — mapping a tag to its attribute name and back yields the tag, and
every string that is not one of the eight names maps to `none` rather than
failing. -/
theorem well_known_bridge_bijection :
    (∀ tag : WellKnownTrait,
      well_known_trait_from_lang_attr (lang_attr_from_well_known_trait tag) =
        some tag)
    ∧ (∀ s : String,
        s ∉ ["sized", "copy", "clone", "drop", "fn_once", "fn_mut", "fn",
             "unsize"] →
        well_known_trait_from_lang_attr s = none) := by
  constructor
  · intro tag
    cases tag <;> decide
  · intro s hs
    simp only [List.mem_cons, List.not_mem_nil, or_false, not_or] at hs
    obtain ⟨h1, h2, h3, h4, h5, h6, h7, h8⟩ := hs
    simp [well_known_trait_from_lang_attr, h1, h2, h3, h4, h5, h6, h7, h8]

/-- C3 witness: a string outside the eight marker names maps to `none`. -/
theorem well_known_bridge_bijection_witness :
    well_known_trait_from_lang_attr "eq" = none :=
  well_known_bridge_bijection.2 "eq" (by decide)

/-- C10: `fn_def_datum_query` and `type_alias_associated_ty_value` do not
depend on their requesting-crate argument: two different requesting crates
yield equal results on the same database and definition id. -/
theorem fn_def_and_assoc_ty_value_crate_independent :
    ∀ (db : ChalkDb) (k1 k2 : CrateId) (fn_def_id : ChalkFnDefId)
      (type_alias : TypeAliasId),
      fn_def_datum_query db k1 fn_def_id = fn_def_datum_query db k2 fn_def_id
      ∧ type_alias_associated_ty_value db k1 type_alias =
          type_alias_associated_ty_value db k2 type_alias :=
  fun _ _ _ _ _ => ⟨rfl, rfl⟩

/-- C4: the pruning-fingerprint set of `impls_for_trait` is the full
integer table for an innermost bound variable declared integer-kinded, the
full float table for one declared float-kinded, and otherwise the
singleton fingerprint of the concrete head type or the empty set when the
type has no stable head fingerprint. -/
theorem fps_selection_correct :
    ∀ (ty : Ty) (binders : List VariableKind),
      (∀ bv, ty = Ty.Bound bv → bv.debruijn = 0 →
        binders.get? bv.index = some (VariableKind.Ty ChalkTyKind.Integer) →
        fpsForTrait ty binders = ALL_INT_FPS)
      ∧ (∀ bv, ty = Ty.Bound bv → bv.debruijn = 0 →
          binders.get? bv.index = some (VariableKind.Ty ChalkTyKind.Float) →
          fpsForTrait ty binders = ALL_FLOAT_FPS)
      ∧ (binder_kind ty binders ≠ some ChalkTyKind.Integer →
          binder_kind ty binders ≠ some ChalkTyKind.Float →
          (∀ fp, TyFingerprint.for_impl ty = some fp →
            fpsForTrait ty binders = [fp])
          ∧ (TyFingerprint.for_impl ty = none →
              fpsForTrait ty binders = [])) := by
  intro ty binders
  refine ⟨?_, ?_, ?_⟩
  · intro bv hty hdb hget
    subst hty
    simp only [List.get?_eq_getElem?] at hget
    simp [fpsForTrait, binder_kind, hdb, hget]
  · intro bv hty hdb hget
    subst hty
    simp only [List.get?_eq_getElem?] at hget
    simp [fpsForTrait, binder_kind, hdb, hget]
  · intro hint hfloat
    constructor
    · intro fp hfp
      unfold fpsForTrait
      rcases hbk : binder_kind ty binders with _ | k
      · simp [hfp]
      · cases k
        · simp [hfp]
        · exact absurd hbk hint
        · exact absurd hbk hfloat
    · intro hfp
      unfold fpsForTrait
      rcases hbk : binder_kind ty binders with _ | k
      · simp [hfp]
      · cases k
        · simp [hfp]
        · exact absurd hbk hint
        · exact absurd hbk hfloat

/-- C4 witness: an innermost bound variable declared integer-kinded
selects the full integer-fingerprint table. -/
theorem fps_selection_correct_witness :
    fpsForTrait (Ty.Bound { debruijn := 0, index := 0 })
      [VariableKind.Ty ChalkTyKind.Integer] = ALL_INT_FPS :=
  (fps_selection_correct (Ty.Bound { debruijn := 0, index := 0 })
    [VariableKind.Ty ChalkTyKind.Integer]).1
    { debruijn := 0, index := 0 } rfl rfl rfl

/-- Every impl listed under a (trait, fingerprint) key of the index is
listed under the trait's full impl list. -/
theorem mem_for_trait_of_mem_for_trait_and_self_ty (m : CrateImplDefs)
    (t : TraitIdInt) (fp : TyFingerprint) (id : ImplIdInt)
    (h : id ∈ m.for_trait_and_self_ty t fp) : id ∈ m.for_trait t := by
  simp only [CrateImplDefs.for_trait_and_self_ty, List.mem_filterMap] at h
  obtain ⟨e, he, hsome⟩ := h
  by_cases hc : e.trait_ = t ∧ e.self_ty_fp = some fp
  · simp only [if_pos hc, Option.some.injEq] at hsome
    simp only [CrateImplDefs.for_trait, List.mem_filterMap]
    exact ⟨e, he, by simp [hc.1, hsome]⟩
  · simp [if_neg hc] at hsome

/-- C1 counterexample: with a consistent impl index holding two impls of
the same trait under different self-type fingerprints, querying at a
concrete self type whose fingerprint matches only the first, the
fingerprint-pruned branch omits the second impl while the unrestricted
scan returns it — so the two branches do not return equal sets. -/
theorem impls_for_trait_pruning_not_equal_cex :
    dbEx.internImpl (Impl.ImplDef ⟨2⟩) ∈
      impls_for_trait_unrestricted dbEx ⟨0⟩ ⟨0⟩
        (Ty.Apply (TypeCtor.Adt ⟨0⟩)) none []
    ∧ dbEx.internImpl (Impl.ImplDef ⟨2⟩) ∉
        impls_for_trait dbEx ⟨0⟩ ⟨0⟩ (Ty.Apply (TypeCtor.Adt ⟨0⟩)) none [] := by
  decide

/-- C1 amended: the pruned branch of `impls_for_trait` refines the
unrestricted branch rather than equalling it — every impl id it returns is
returned by the unrestricted scan (built-in impls appended identically),
the two branches coincide when the pruning set is empty, and no indexed
impl whose self-type fingerprint lies in the pruning set is lost. -/
theorem impls_for_trait_pruning_refines_unrestricted :
    ∀ (db : ChalkDb) (krate : CrateId) (trait_ : TraitIdInt) (ty : Ty)
      (arg : Option Ty) (binders : List VariableKind),
      (∀ x, x ∈ impls_for_trait db krate trait_ ty arg binders →
        x ∈ impls_for_trait_unrestricted db krate trait_ ty arg binders)
      ∧ (fpsForTrait ty binders = [] →
          impls_for_trait db krate trait_ ty arg binders =
            impls_for_trait_unrestricted db krate trait_ ty arg binders)
      ∧ (∀ e fp,
          (e ∈ (db.trait_impls_in_deps krate).entries ∨
            e ∈ (db.trait_impls_in_crate krate).entries) →
          e.trait_ = trait_ → e.self_ty_fp = some fp →
          fp ∈ fpsForTrait ty binders →
          db.internImpl (Impl.ImplDef e.impl_id) ∈
            impls_for_trait db krate trait_ ty arg binders) := by
  intro db krate trait_ ty arg binders
  refine ⟨?_, ?_, ?_⟩
  · intro x hx
    simp only [impls_for_trait, impls_for_trait_unrestricted,
      List.mem_append] at hx ⊢
    rcases hx with hx | hx
    · left
      by_cases hfps : (fpsForTrait ty binders).isEmpty
      · simpa [hfps] using hx
      · simp only [hfps, if_neg, Bool.false_eq_true, if_false,
          List.mem_flatMap, List.mem_map] at hx
        obtain ⟨m, hm, fp, _, id, hid, hxid⟩ := hx
        simp only [List.mem_flatMap, List.mem_map]
        exact ⟨m, hm, id,
          mem_for_trait_of_mem_for_trait_and_self_ty m trait_ fp id hid, hxid⟩
    · right
      exact hx
  · intro h
    simp [impls_for_trait, impls_for_trait_unrestricted, h]
  · intro e fp hmem htr hfp hfpmem
    have hne : ¬(fpsForTrait ty binders).isEmpty := by
      cases hfps : fpsForTrait ty binders with
      | nil => rw [hfps] at hfpmem; cases hfpmem
      | cons a l => simp [hfps]
    simp only [impls_for_trait, List.mem_append]
    left
    rw [if_neg hne]
    simp only [List.mem_flatMap, List.mem_map]
    rcases hmem with hmem | hmem
    · exact ⟨db.trait_impls_in_deps krate, by simp, fp, hfpmem, e.impl_id,
        by simp only [CrateImplDefs.for_trait_and_self_ty, List.mem_filterMap]
           exact ⟨e, hmem, by simp [htr, hfp]⟩,
        rfl⟩
    · exact ⟨db.trait_impls_in_crate krate, by simp, fp, hfpmem, e.impl_id,
        by simp only [CrateImplDefs.for_trait_and_self_ty, List.mem_filterMap]
           exact ⟨e, hmem, by simp [htr, hfp]⟩,
        rfl⟩

/-- C1 witness (for the amended claim): at the counterexample's query the
pruned result is contained in the unrestricted one, and the matching
first impl is not lost by pruning. -/
theorem impls_for_trait_pruning_refines_unrestricted_witness :
    dbEx.internImpl (Impl.ImplDef ⟨1⟩) ∈
      impls_for_trait_unrestricted dbEx ⟨0⟩ ⟨0⟩
        (Ty.Apply (TypeCtor.Adt ⟨0⟩)) none []
    ∧ dbEx.internImpl (Impl.ImplDef ⟨1⟩) ∈
        impls_for_trait dbEx ⟨0⟩ ⟨0⟩ (Ty.Apply (TypeCtor.Adt ⟨0⟩)) none [] := by
  have h := impls_for_trait_pruning_refines_unrestricted dbEx ⟨0⟩ ⟨0⟩
    (Ty.Apply (TypeCtor.Adt ⟨0⟩)) none []
  have hin : dbEx.internImpl (Impl.ImplDef ⟨1⟩) ∈
      impls_for_trait dbEx ⟨0⟩ ⟨0⟩ (Ty.Apply (TypeCtor.Adt ⟨0⟩)) none [] :=
    h.2.2 { trait_ := ⟨0⟩
            self_ty_fp := some (TyFingerprint.apply (TypeCtor.Adt ⟨0⟩))
            impl_id := ⟨1⟩ }
      (TyFingerprint.apply (TypeCtor.Adt ⟨0⟩))
      (Or.inr (by decide)) rfl rfl (by decide)
  exact ⟨h.1 _ hin, hin⟩

/-- C5: constructing an `ImplDatum` or a type-alias associated-type value
for an impl whose trait reference did not resolve is the fatal (panic)
arm, modelled as `none`; under the precondition that the trait reference
resolved (plus, for the value, the container/lookup preconditions), the
panic arm is unreachable and construction succeeds. -/
theorem unresolved_impl_trait_fatal :
    (∀ (db : ChalkDb) (krate : CrateId) (cid : ChalkImplId) (iid : ImplIdInt),
        db.impl_trait iid = none → impl_def_datum db krate cid iid = none)
    ∧ (∀ (db : ChalkDb) (krate : CrateId) (cid : ChalkImplId) (iid : ImplIdInt),
        (db.impl_trait iid).isSome →
        (impl_def_datum db krate cid iid).isSome)
    ∧ (∀ (db : ChalkDb) (krate : CrateId) (ta : TypeAliasId) (iid : ImplIdInt),
        db.type_alias_container ta = AssocContainerId.ImplContainer iid →
        db.impl_trait iid = none →
        type_alias_associated_ty_value db krate ta = none)
    ∧ (∀ (db : ChalkDb) (krate : CrateId) (ta : TypeAliasId) (iid : ImplIdInt)
        (trb : Binders TraitRef) (a : TypeAliasId),
        db.type_alias_container ta = AssocContainerId.ImplContainer iid →
        db.impl_trait iid = some trb →
        (db.trait_data trb.value.trait_).associated_type_by_name
          (db.type_alias_data ta).name = some a →
        (type_alias_associated_ty_value db krate ta).isSome) := by
  refine ⟨?_, ?_, ?_, ?_⟩
  · intro db krate cid iid h
    simp [impl_def_datum, h]
  · intro db krate cid iid h
    obtain ⟨trb, htrb⟩ := Option.isSome_iff_exists.mp h
    simp [impl_def_datum, htrb]
  · intro db krate ta iid hc h
    simp [type_alias_associated_ty_value, hc, h]
  · intro db krate ta iid trb a hc h ha
    simp [type_alias_associated_ty_value, hc, h, ha]

/-- C5 witness: on the fixture, impl `⟨0⟩` (unresolved trait) makes both
constructions hit the fatal arm, impl `⟨1⟩` (resolved trait) succeeds for
both. -/
theorem unresolved_impl_trait_fatal_witness :
    impl_def_datum dbEx ⟨0⟩ ⟨0⟩ ⟨0⟩ = none
    ∧ (impl_def_datum dbEx ⟨0⟩ ⟨1⟩ ⟨1⟩).isSome
    ∧ type_alias_associated_ty_value dbEx ⟨0⟩ ⟨0⟩ = none
    ∧ (type_alias_associated_ty_value dbEx ⟨0⟩ ⟨1⟩).isSome :=
  ⟨unresolved_impl_trait_fatal.1 dbEx ⟨0⟩ ⟨0⟩ ⟨0⟩ rfl,
   unresolved_impl_trait_fatal.2.1 dbEx ⟨0⟩ ⟨1⟩ ⟨1⟩ (by decide),
   unresolved_impl_trait_fatal.2.2.1 dbEx ⟨0⟩ ⟨0⟩ ⟨0⟩ rfl rfl,
   unresolved_impl_trait_fatal.2.2.2 dbEx ⟨0⟩ ⟨1⟩ ⟨1⟩
     { num_binders := 0, value := { trait_ := ⟨0⟩ } } ⟨5⟩
     rfl (by decide) (by decide)⟩

/-- C6: each constructed datum's declared binder count equals the
generic-parameter count of its originating definition as produced by the
`generics` query (which already includes the implicit Self position for
trait contexts): the trait datum and the associated-type datum count the
definition's generic parameters, and the function datum counts the
signature's binders, which the external lowering produces as exactly the
function's generic parameters (hypothesis). -/
theorem datum_binder_counts :
    (∀ (db : ChalkDb) (krate : CrateId) (trait_id : ChalkTraitId),
        (trait_datum_query db krate trait_id).binders.num_binders =
          db.generics_len (GenericDefId.traitDef (traitFromChalk trait_id)))
    ∧ (∀ (db : ChalkDb) (id : ChalkAssocTypeId) (d : AssociatedTyDatum),
        associated_ty_data_query db id = some d →
        d.binders.num_binders =
          db.generics_len (GenericDefId.typeAliasDef (assocTypeFromChalk id)))
    ∧ (∀ (db : ChalkDb) (krate : CrateId) (fn_def_id : ChalkFnDefId),
        (db.callable_item_signature (fnDefIdToCallableDefId fn_def_id)).num_binders =
          db.generics_len
            (GenericDefId.callableDef (fnDefIdToCallableDefId fn_def_id)) →
        (fn_def_datum_query db krate fn_def_id).binders.num_binders =
          db.generics_len
            (GenericDefId.callableDef (fnDefIdToCallableDefId fn_def_id))) := by
  refine ⟨?_, ?_, ?_⟩
  · intro db krate trait_id
    rfl
  · intro db id d h
    unfold associated_ty_data_query at h
    rcases hc : db.type_alias_container (assocTypeFromChalk id) with t | i | m
    · simp only [hc, Option.some.injEq] at h
      rw [← h]
      rfl
    · simp only [hc] at h
      cases h
    · simp only [hc] at h
      cases h
  · intro db krate fn_def_id h
    exact h

/-- C6 witness: on the fixture, the associated-type datum for the
trait-contained alias `⟨5⟩` and the function datum both carry the
generic-parameter count of their definitions. -/
theorem datum_binder_counts_witness :
    (associated_ty_data_query dbEx ⟨5⟩).map
        (fun d => d.binders.num_binders) =
      some (dbEx.generics_len (GenericDefId.typeAliasDef ⟨5⟩))
    ∧ (fn_def_datum_query dbEx ⟨0⟩ ⟨0⟩).binders.num_binders =
        dbEx.generics_len (GenericDefId.callableDef ⟨0⟩) := by
  constructor
  · rcases heq : associated_ty_data_query dbEx ⟨5⟩ with _ | d
    · exact absurd heq (by decide)
    · have hd := datum_binder_counts.2.1 dbEx ⟨5⟩ d heq
      simp [heq, hd, assocTypeFromChalk]
  · exact datum_binder_counts.2.2 dbEx ⟨0⟩ ⟨0⟩ rfl

/-- C7: upstream/local classification compares the definition's owning
crate with the requesting crate — a trait or ADT datum is not-upstream
exactly when its owning crate is the requesting crate, and an impl datum
is `Local` exactly when its owning crate is the requesting crate. -/
theorem upstream_local_classification :
    (∀ (db : ChalkDb) (krate : CrateId) (trait_id : ChalkTraitId),
        ((trait_datum_query db krate trait_id).flags.upstream = false ↔
          db.trait_module_krate (traitFromChalk trait_id) = krate))
    ∧ (∀ (db : ChalkDb) (krate : CrateId) (struct_id : ChalkAdtId)
        (a : AdtIdHir),
        db.lookup_intern_type_ctor (adtIdToTypeCtorId struct_id) =
          TypeCtor.Adt a →
        ((struct_datum_query db krate struct_id).flags.upstream = false ↔
          db.adt_module_krate a = krate))
    ∧ (∀ (db : ChalkDb) (krate : CrateId) (cid : ChalkImplId)
        (iid : ImplIdInt) (d : ImplDatum),
        impl_def_datum db krate cid iid = some d →
        (d.impl_type = ImplType.Local ↔ db.impl_module_krate iid = krate)) := by
  refine ⟨?_, ?_, ?_⟩
  · intro db krate trait_id
    simp [trait_datum_query]
  · intro db krate struct_id a h
    simp [struct_datum_query, TypeCtor.krate, h]
  · intro db krate cid iid d h
    rcases ht : db.impl_trait iid with _ | trb
    · rw [impl_def_datum, ht] at h
      cases h
    · rw [impl_def_datum, ht] at h
      simp only [Option.some.injEq] at h
      subst h
      by_cases hk : db.impl_module_krate iid = krate
      · simp [hk]
      · simp [hk]

/-- C7 witness: on the fixture (everything owned by crate `⟨0⟩`), the
trait, the ADT and impl `⟨1⟩` are all classified not-upstream / `Local`
when queried from crate `⟨0⟩`, and upstream / `External` when queried from
crate `⟨1⟩`. -/
theorem upstream_local_classification_witness :
    (trait_datum_query dbEx ⟨0⟩ ⟨0⟩).flags.upstream = false
    ∧ (trait_datum_query dbEx ⟨1⟩ ⟨0⟩).flags.upstream ≠ false
    ∧ (struct_datum_query dbEx ⟨0⟩ ⟨⟨0⟩⟩).flags.upstream = false
    ∧ (impl_def_datum dbEx ⟨0⟩ ⟨1⟩ ⟨1⟩).map ImplDatum.impl_type =
        some ImplType.Local := by
  refine ⟨?_, ?_, ?_, ?_⟩
  · exact (upstream_local_classification.1 dbEx ⟨0⟩ ⟨0⟩).mpr rfl
  · intro hfalse
    have := (upstream_local_classification.1 dbEx ⟨1⟩ ⟨0⟩).mp hfalse
    simp [dbEx] at this
  · exact (upstream_local_classification.2.1 dbEx ⟨0⟩ ⟨⟨0⟩⟩ ⟨0⟩ rfl).mpr rfl
  · rcases heq : impl_def_datum dbEx ⟨0⟩ ⟨1⟩ ⟨1⟩ with _ | d
    · exact absurd heq (by decide)
    · have hl := (upstream_local_classification.2.2 dbEx ⟨0⟩ ⟨1⟩ ⟨1⟩ d heq).mpr rfl
      simp [heq, hl]

/-- C8: the opaque-type datum for a (function, ordinal) record contains
exactly the record's bound entries that are not internal error
placeholders — nothing else — wrapped in exactly one inner binder (the
opaque type's own existential variable) inside an outer binder whose count
is the record's stored binder count. -/
theorem opaque_ty_datum_bounds :
    ∀ (db : ChalkDb) (id : ChalkOpaqueTyId) (func : FunctionId) (idx : Nat)
      (datas : Binders ReturnTypeImplTraits) (data : ReturnTypeImplTrait),
      db.lookup_intern_impl_trait_id (opaqueTyIdToInterned id) =
        OpaqueTyIdFull.ReturnTypeImplTrait func idx →
      db.return_type_impl_traits func = some datas →
      datas.value.impl_traits.get? idx = some data →
      ∃ d, opaque_ty_data db id = some d
        ∧ d.bound.num_binders = datas.num_binders
        ∧ d.bound.value.bounds.num_binders = 1
        ∧ (∀ b, predToChalk b ∈ d.bound.value.bounds.value ↔
            b ∈ data.bounds.value ∧ b.is_error = false)
        ∧ (∀ c, c ∈ d.bound.value.bounds.value →
            ∃ b, b ∈ data.bounds.value ∧ b.is_error = false
              ∧ c = predToChalk b) := by
  intro db id func idx datas data h1 h2 h3
  refine ⟨{ opaque_ty_id := id
            bound := make_binders
              { bounds := make_binders
                  ((data.bounds.value.filter
                    (fun b => !b.is_error)).map predToChalk) 1 }
              datas.num_binders }, ?_, rfl, rfl, ?_, ?_⟩
  · simp only [opaque_ty_data, h1, h2, h3]
  · intro b
    simp only [make_binders, List.mem_map, List.mem_filter]
    constructor
    · rintro ⟨b', ⟨hb', herr⟩, heq⟩
      have hbb : b' = b := by
        simpa [predToChalk, ChalkWhereClause.mk.injEq] using heq
      subst hbb
      exact ⟨hb', by simpa using herr⟩
    · rintro ⟨hb, herr⟩
      exact ⟨b, ⟨hb, by simp [herr]⟩, rfl⟩
  · intro c hc
    simp only [make_binders, List.mem_map, List.mem_filter] at hc
    obtain ⟨b, ⟨hb, herr⟩, hcb⟩ := hc
    exact ⟨b, hb, by simpa using herr, hcb.symm⟩

/-- C8 witness: the fixture's record (one real bound, one error
placeholder, stored binder count 2) yields a datum whose outer binder
count is 2 and whose filtered bound list keeps exactly the real bound. -/
theorem opaque_ty_datum_bounds_witness :
    (opaque_ty_data dbEx ⟨0⟩).elim False
      (fun d =>
        d.bound.num_binders = 2
        ∧ d.bound.value.bounds.num_binders = 1
        ∧ predToChalk (GenericPredicate.Implemented { trait_ := ⟨0⟩ }) ∈
            d.bound.value.bounds.value
        ∧ predToChalk GenericPredicate.Error ∉ d.bound.value.bounds.value) := by
  obtain ⟨d, hd, hnum, hone, hmem, -⟩ :=
    opaque_ty_datum_bounds dbEx ⟨0⟩ ⟨0⟩ 0 datasEx dataEx rfl rfl rfl
  rw [hd]
  refine ⟨hnum, hone, ?_, ?_⟩
  · exact (hmem (GenericPredicate.Implemented { trait_ := ⟨0⟩ })).mpr
      ⟨by decide, rfl⟩
  · intro hcon
    have hfalse := (hmem GenericPredicate.Error).mp hcon
    simp [GenericPredicate.is_error] at hfalse

/-- C9: the associated-type-value id set of a constructed `ImplDatum`
consists exactly of the impl's type-alias items whose name matches an
associated type declared on the implemented trait; non-type-alias items
and aliases whose name is absent from the trait are silently dropped. -/
theorem impl_datum_assoc_ty_value_ids :
    ∀ (db : ChalkDb) (krate : CrateId) (cid : ChalkImplId) (iid : ImplIdInt)
      (trb : Binders TraitRef) (d : ImplDatum),
      db.impl_trait iid = some trb →
      impl_def_datum db krate cid iid = some d →
      ∀ x, x ∈ d.associated_ty_value_ids ↔
        ∃ ta, AssocItemId.typeAliasId ta ∈ (db.impl_data iid).items
          ∧ ((db.trait_data trb.value.trait_).associated_type_by_name
              (db.type_alias_data ta).name).isSome = true
          ∧ x = db.internAssocTyValue (AssocTyValue.TypeAlias ta) := by
  intro db krate cid iid trb d h1 h2 x
  simp only [impl_def_datum, h1, Option.some.injEq] at h2
  subst h2
  simp only [List.mem_map, List.mem_filter, List.mem_filterMap]
  constructor
  · rintro ⟨ta, ⟨⟨item, hitem, hsome⟩, hkeep⟩, rfl⟩
    cases item with
    | typeAliasId t =>
        simp only [Option.some.injEq] at hsome
        subst hsome
        exact ⟨t, hitem, hkeep, rfl⟩
    | functionId f => cases hsome
    | constId c => cases hsome
  · rintro ⟨ta, hitem, hsome, rfl⟩
    exact ⟨ta, ⟨⟨AssocItemId.typeAliasId ta, hitem, rfl⟩, hsome⟩, rfl⟩

/-- C9 witness: on the fixture impl (items: alias "Assoc" `⟨1⟩`, a
function, alias "Other" `⟨7⟩`; trait declares only "Assoc"), the value id
of alias `⟨1⟩` is in the datum's id set and the value id of alias `⟨7⟩` is
not. -/
theorem impl_datum_assoc_ty_value_ids_witness :
    (impl_def_datum dbEx ⟨0⟩ ⟨1⟩ ⟨1⟩).elim False
      (fun d =>
        dbEx.internAssocTyValue (AssocTyValue.TypeAlias ⟨1⟩) ∈
          d.associated_ty_value_ids
        ∧ dbEx.internAssocTyValue (AssocTyValue.TypeAlias ⟨7⟩) ∉
            d.associated_ty_value_ids) := by
  rcases heq : impl_def_datum dbEx ⟨0⟩ ⟨1⟩ ⟨1⟩ with _ | d
  · exact absurd heq (by decide)
  · have hiff := impl_datum_assoc_ty_value_ids dbEx ⟨0⟩ ⟨1⟩ ⟨1⟩
      { num_binders := 0, value := { trait_ := ⟨0⟩ } } d (by decide) heq
    constructor
    · exact (hiff _).mpr ⟨⟨1⟩, by decide, by decide, rfl⟩
    · intro hcon
      obtain ⟨ta, hitem, hsome, hx⟩ := (hiff _).mp hcon
      have hta : ta.value = 7 := by
        have : (7 : Nat) = ta.value := congrArg ChalkAssocTyValueId.value hx
        exact this.symm
      cases ta with
      | mk v =>
          subst hta
          exact absurd hsome (by decide)

end Chalk
